import Mathlib

/-!
Shallow embedding of the chatbot conversation core of the i-backend repository
(`ChatbotService` in the chatbot service module): the lexical intent matcher
(`analyzeIntent`), the step response generator (`generateResponse` and its
per-step handlers), the context fetch (`getConversationContext`), the gated
context merge (`updateContext`) and the orchestrator (`processMessage`).

Conventions of the embedding:
* JavaScript strings are Lean `String`s; all character-level operations
  (lower-casing, `includes`, `replace('-', ' ')`, digit extraction, the email
  and phone regular expressions) are modelled over `List Char`.
* A possibly-missing JavaScript object field is an `Option`.  Reading or
  writing a property of a missing `collectedData` object raises a `TypeError`
  in JavaScript; such an access is modelled in the `Except Unit` monad.
* The Mongo-backed store is collapsed to the value the service observes in a
  single call: `Except Unit (Option Ctx)` - a thrown lookup error, no prior
  record, or the context of the latest stored record.  Both fetches inside
  one `processMessage` call observe the same store value.
* Confidences are stored in tenths of the source's floating literals
  (`0.9` is `9`, the gate threshold `0.6` is `6`).  Every confidence in the
  source is an exact multiple of 0.1 and the only comparison is against 0.6,
  so integer comparison in tenths reproduces the source comparison exactly.
-/

namespace IBackend

/-- ASCII word character, JavaScript regex `\w`. -/
def isWordChar (c : Char) : Bool := c.isAlphanum || c == '_'

/-- JavaScript `String.prototype.toLowerCase` restricted to ASCII input. -/
def lowerStr (s : String) : String := String.mk (s.toList.map Char.toLower)

/-- JavaScript `s.charAt(0).toUpperCase() + s.slice(1)` as used by the handlers. -/
def capitalizeJS (s : String) : String :=
  match s.toList with
  | [] => ""
  | c :: r => String.mk (Char.toUpper c :: r)

/-- Does the list start with the given pattern (both as character lists)? -/
def startsWithL : List Char → List Char → Bool
  | _, [] => true
  | [], _ :: _ => false
  | a :: as, b :: bs => a == b && startsWithL as bs

/-- Substring occurrence on character lists. -/
def includesL : List Char → List Char → Bool
  | [], needle => needle.isEmpty
  | c :: rest, needle => startsWithL (c :: rest) needle || includesL rest needle

/-- JavaScript `String.prototype.includes`. -/
def includes (hay needle : String) : Bool := includesL hay.toList needle.toList

/-- JavaScript `s.replace('-', ' ')`: only the first hyphen is replaced. -/
def replaceFirstDashL : List Char → List Char
  | [] => []
  | c :: r => if c == '-' then ' ' :: r else c :: replaceFirstDashL r

/-- String form of `replaceFirstDashL`. -/
def replaceFirstDash (s : String) : String := String.mk (replaceFirstDashL s.toList)

/-- Accumulate the value of a leading run of decimal digits. -/
def digitsVal : List Char → Nat → Nat
  | [], acc => acc
  | c :: r, acc => if c.isDigit then digitsVal r (acc * 10 + (c.toNat - 48)) else acc

/-- JavaScript `parseInt(lowerMessage.match(/\d+/g)[0])`: the value of the
first maximal run of digits, or `none` when the string has no digit. -/
def firstDigitRun : List Char → Option Nat
  | [] => none
  | c :: r => if c.isDigit then some (digitsVal (c :: r) 0) else firstDigitRun r

/-- Length of the longest prefix whose characters satisfy `p`. -/
def countWhile (p : Char → Bool) : List Char → Nat
  | [] => 0
  | c :: r => if p c then countWhile p r + 1 else 0

/-- Consume exactly `n` characters satisfying `p`, returning the rest. -/
def eatN (p : Char → Bool) : Nat → List Char → Option (List Char)
  | 0, l => some l
  | _ + 1, [] => none
  | n + 1, c :: r => if p c then eatN p n r else none

/-- Backtracking point for an optional single character (regex `x?`): the
greedy branch consuming the character is tried before the empty branch. -/
def thenOpt (p : Char → Bool) (k : List Char → Option (List Char)) (l : List Char) :
    Option (List Char) :=
  (match l with
   | c :: r => if p c then k r else none
   | [] => none) <|> k l

/-- Greedy `p*` with backtracking into the continuation `k`. -/
def manyCPS (p : Char → Bool) (k : List Char → Option (List Char)) : List Char → Option (List Char)
  | [] => k []
  | c :: r => if p c then (manyCPS p k r <|> k (c :: r)) else k (c :: r)

/-- Greedy `p+` with backtracking into the continuation `k`. -/
def plusCPS (p : Char → Bool) (k : List Char → Option (List Char)) : List Char → Option (List Char)
  | [] => none
  | c :: r => if p c then manyCPS p k r else none

/-- Try `k` at `n`, then `n - 1`, ..., down to `lo` (greedy bounded repetition). -/
def tryDown (k : Nat → Option α) (lo : Nat) : Nat → Option α
  | 0 => if lo == 0 then k 0 else none
  | n + 1 => if n + 1 < lo then none else (k (n + 1) <|> tryDown k lo n)

/-- Character class `[A-Za-z0-9._%+-]` of the email pattern. -/
def emailLocalCls (c : Char) : Bool :=
  c.isAlphanum || c == '.' || c == '_' || c == '%' || c == '+' || c == '-'

/-- Character class `[A-Za-z0-9.-]` of the email pattern. -/
def emailDomainCls (c : Char) : Bool := c.isAlphanum || c == '.' || c == '-'

/-- Character class `[A-Z|a-z]` of the email pattern (the literal `|` included). -/
def emailTldCls (c : Char) : Bool := c.isAlpha || c == '|'

/-- Word-character test of an optional character; string edges count as non-word. -/
def wordOpt : Option Char → Bool
  | none => false
  | some c => isWordChar c

/-- Trailing `[A-Z|a-z]{2,}\b` of the email pattern: greedy from the maximal
run down to two characters, requiring a word boundary after the match.
Returns the rest of the input after the matched characters. -/
def emailTldSeg (l : List Char) : Option (List Char) :=
  tryDown
    (fun m =>
      if 2 ≤ m && (wordOpt (l.get? (m - 1)) != wordOpt (l.get? m)) then some (l.drop m)
      else none)
    2 (countWhile emailTldCls l)

/-- Match `\b[A-Za-z0-9._%+-]+@[A-Za-z0-9.-]+\.[A-Z|a-z]{2,}\b` anchored at the
current position, `prevWord` telling whether the preceding character is a word
character.  Returns the rest of the input after the match. -/
def emailMatchAt (prevWord : Bool) (l : List Char) : Option (List Char) :=
  if prevWord == wordOpt l.head? then none
  else
    plusCPS emailLocalCls
      (fun r1 =>
        match r1 with
        | '@' :: r2 =>
          plusCPS emailDomainCls
            (fun r3 =>
              match r3 with
              | '.' :: r4 => emailTldSeg r4
              | _ => none) r2
        | _ => none) l

/-- Scan left to right for the first position where the email pattern matches,
returning the matched substring, i.e. `message.match(emailPattern)[0]`. -/
def emailSearchAux (fuel : Nat) (prevWord : Bool) (l : List Char) : Option (List Char) :=
  match fuel with
  | 0 => none
  | fuel + 1 =>
    match emailMatchAt prevWord l with
    | some rest => some (l.take (l.length - rest.length))
    | none =>
      match l with
      | [] => none
      | c :: r => emailSearchAux fuel (isWordChar c) r

/-- First match of the email pattern in a string, `none` when `test` fails. -/
def emailSearch (s : String) : Option String :=
  (emailSearchAux (s.toList.length + 1) false s.toList).map String.mk

/-- Separator class `[-. ]` of the phone pattern. -/
def isSep (c : Char) : Bool := c == '-' || c == '.' || c == ' '

/-- Match `(\+\d{1,3}[-. ]?)?\(?\d{3}\)?[-. ]?\d{3}[-. ]?\d{4}` anchored at the
current position, compiled to continuation-passing style with the backtracking
priorities of the JavaScript engine (greedy alternatives first). -/
def phoneMatchAt (l : List Char) : Option (List Char) :=
  let k7 : List Char → Option (List Char) := fun r => eatN Char.isDigit 4 r
  let k6 := thenOpt isSep k7
  let k5 : List Char → Option (List Char) := fun r => (eatN Char.isDigit 3 r).bind k6
  let k4 := thenOpt isSep k5
  let k3 := thenOpt (fun c => c == ')') k4
  let k2 : List Char → Option (List Char) := fun r => (eatN Char.isDigit 3 r).bind k3
  let k1 := thenOpt (fun c => c == '(') k2
  (match l with
   | '+' :: r =>
     (eatN Char.isDigit 3 r).bind (thenOpt isSep k1)
       <|> (eatN Char.isDigit 2 r).bind (thenOpt isSep k1)
       <|> (eatN Char.isDigit 1 r).bind (thenOpt isSep k1)
   | _ => none) <|> k1 l

/-- Scan left to right for the first position where the phone pattern matches. -/
def phoneSearchAux (fuel : Nat) (l : List Char) : Option (List Char) :=
  match fuel with
  | 0 => none
  | fuel + 1 =>
    match phoneMatchAt l with
    | some rest => some (l.take (l.length - rest.length))
    | none =>
      match l with
      | [] => none
      | _ :: r => phoneSearchAux fuel r

/-- First match of the phone pattern in a string, `none` when `test` fails. -/
def phoneSearch (s : String) : Option String :=
  (phoneSearchAux (s.toList.length + 1) s.toList).map String.mk

/-- The `CONVERSATION_STEPS` enumeration. -/
inductive Step
  | greeting
  | project_type
  | room_type
  | design_style
  | budget
  | timeline
  | room_size
  | contact_info
  | additional_notes
  | complete
deriving DecidableEq

/-- The optional fields of `context.collectedData` (`phone` appears in the
stored schema and the spec's data model; the service itself never writes it). -/
structure CollectedData where
  projectType : Option String := none
  roomType : Option String := none
  designStyle : Option String := none
  budget : Option String := none
  timeline : Option String := none
  roomSize : Option String := none
  name : Option String := none
  email : Option String := none
  phone : Option String := none
  additionalNotes : Option String := none
deriving DecidableEq

/-- A conversation context as the service sees it.  `currentStep` and
`collectedData` are optional because a stored record's context object can
lack either property; an absent `userPreferences` map behaves like an empty
one for the code under study, so it is a plain association list. -/
structure Ctx where
  currentStep : Option Step := none
  collectedData : Option CollectedData := none
  userPreferences : List (String × String) := []
deriving DecidableEq

/-- The fresh context `{currentStep: 'greeting', collectedData: {}, userPreferences: {}}`. -/
def initialContext : Ctx :=
  { currentStep := some Step.greeting, collectedData := some {}, userPreferences := [] }

/-- Result of `analyzeIntent`: `data` is the extracted e-mail or phone match;
`confidence` is in tenths. -/
structure Intent where
  type : String
  confidence : Nat
  data : Option String := none
deriving DecidableEq

/-- Result of a step handler: the bot message, the next step, the completion
flag and, for the final step only, the fixed `nextSteps` array. -/
structure Resp where
  message : String
  nextStep : Step
  isComplete : Bool
  nextSteps : Option (List String) := none
deriving DecidableEq

/-- The record `processMessage` returns to its caller. -/
structure Outcome where
  response : String
  intent : String
  confidence : Nat
  context : Ctx
  isComplete : Bool
  nextSteps : Option (List String)
deriving DecidableEq

/-- The `DESIGN_STYLES` table, in object insertion order. -/
def DESIGN_STYLES : List (String × String) :=
  [("modern", "Clean lines, minimal decoration, and a focus on function"),
   ("traditional", "Classic elegance with rich colors and ornate details"),
   ("contemporary", "Current trends with clean, sophisticated aesthetics"),
   ("minimalist", "Simple, uncluttered spaces with essential elements only"),
   ("industrial", "Raw materials, exposed elements, and urban aesthetics"),
   ("scandinavian", "Light, airy spaces with natural materials and functionality"),
   ("bohemian", "Eclectic, artistic, and free-spirited design"),
   ("coastal", "Relaxed, beach-inspired with light colors and natural textures"),
   ("farmhouse", "Rustic charm with modern comfort and vintage elements"),
   ("mid-century", "Retro style from the 1950s-60s with clean lines"),
   ("art-deco", "Luxurious, geometric patterns and bold colors"),
   ("other", "Custom or mixed style approach")]

/-- The `BUDGET_RANGES` table, in object insertion order. -/
def BUDGET_RANGES : List (String × String) :=
  [("under-10k", "Under $10,000"),
   ("10k-25k", "$10,000 - $25,000"),
   ("25k-50k", "$25,000 - $50,000"),
   ("50k-100k", "$50,000 - $100,000"),
   ("over-100k", "Over $100,000")]

/-- The `TIMELINE_OPTIONS` table, in object insertion order. -/
def TIMELINE_OPTIONS : List (String × String) :=
  [("1-3-months", "1-3 months"),
   ("3-6-months", "3-6 months"),
   ("6-12-months", "6-12 months"),
   ("over-12-months", "Over 12 months")]

/-- JavaScript object indexing `table[key]`. -/
def lookupTable (t : List (String × String)) (k : String) : Option String :=
  (t.find? (fun p => p.fst == k)).map (fun p => p.snd)

/-- The fixed room-type list of the `room_type` matcher branch. -/
def roomTypesList : List String :=
  ["living room", "bedroom", "kitchen", "bathroom", "dining room", "office",
   "basement", "outdoor"]

/-- The default intent `{type: 'unknown', confidence: 0.3}`. -/
def unknownIntent : Intent := { type := "unknown", confidence := 3 }

/-- The numeric budget fallback: bucket the first extracted integer. -/
def budgetFromNumber (budget : Nat) : Intent :=
  if budget < 10000 then { type := "under-10k", confidence := 7 }
  else if budget < 25000 then { type := "10k-25k", confidence := 7 }
  else if budget < 50000 then { type := "25k-50k", confidence := 7 }
  else if budget < 100000 then { type := "50k-100k", confidence := 7 }
  else { type := "over-100k", confidence := 7 }

/-- The lexical intent matcher `analyzeIntent(message, currentStep)`.  The
source is a sequence of blocks each guarded by a distinct `currentStep`
comparison with early returns, so it is dispatched here as a single match on
the step; a step whose block produces no intent falls through to the default
`unknown` intent exactly as in the source. -/
def analyzeIntent (message : String) (currentStep : Step) : Intent :=
  let lower := lowerStr message
  match currentStep with
  | Step.greeting =>
    if includes lower "hello" || includes lower "hi" || includes lower "hey" then
      { type := "greeting", confidence := 9 }
    else unknownIntent
  | Step.project_type =>
    if includes lower "residential" || includes lower "home" || includes lower "house" then
      { type := "residential", confidence := 8 }
    else if includes lower "commercial" || includes lower "office" || includes lower "business" then
      { type := "commercial", confidence := 8 }
    else if includes lower "renovation" || includes lower "remodel" then
      { type := "renovation", confidence := 7 }
    else unknownIntent
  | Step.room_type =>
    match roomTypesList.find? (fun rt => includes lower rt) with
    | some rt => { type := rt, confidence := 8 }
    | none => unknownIntent
  | Step.design_style =>
    match DESIGN_STYLES.find? (fun p => includes lower p.fst) with
    | some p => { type := p.fst, confidence := 8 }
    | none => unknownIntent
  | Step.budget =>
    match BUDGET_RANGES.find?
        (fun p => includes lower (replaceFirstDash p.fst) || includes lower (lowerStr p.snd)) with
    | some p => { type := p.fst, confidence := 8 }
    | none =>
      match firstDigitRun lower.toList with
      | some n => budgetFromNumber n
      | none => unknownIntent
  | Step.timeline =>
    match TIMELINE_OPTIONS.find?
        (fun p => includes lower (replaceFirstDash p.fst) || includes lower (lowerStr p.snd)) with
    | some p => { type := p.fst, confidence := 8 }
    | none => unknownIntent
  | Step.contact_info =>
    match emailSearch message with
    | some m => { type := "email", confidence := 9, data := some m }
    | none =>
      match phoneSearch message with
      | some m => { type := "phone", confidence := 9, data := some m }
      | none =>
        if includes lower "name" || includes lower "call me" then
          { type := "name", confidence := 7 }
        else unknownIntent
  | _ => unknownIntent

/-- JavaScript assignment `context.collectedData.f = v`: a `TypeError` when
the `collectedData` object is missing. -/
def setCD (ctx : Ctx) (f : CollectedData → CollectedData) : Except Unit Ctx :=
  match ctx.collectedData with
  | none => Except.error ()
  | some d => Except.ok { ctx with collectedData := some (f d) }

/-- JavaScript read `context.collectedData.f`: a `TypeError` when the
`collectedData` object is missing. -/
def getCD (ctx : Ctx) (f : CollectedData → Option String) : Except Unit (Option String) :=
  match ctx.collectedData with
  | none => Except.error ()
  | some d => Except.ok (f d)

/-- JavaScript truthiness of an optional string field. -/
def jsTruthy (o : Option String) : Bool :=
  match o with
  | none => false
  | some s => !(s == "")

/-- Text interpolation `${x}` of a possibly-undefined value. -/
def jsShow (o : Option String) : String :=
  match o with
  | some s => s
  | none => "undefined"

/-- The bullet `â€¢` as it appears in the source (the file
stores the UTF-8 bullet mis-decoded once, so this three-character sequence
is the literal content). -/
def bullet : String := "â€¢"

/-- The `handleGreeting` handler. -/
def handleGreeting (intent : Intent) (ctx : Ctx) : Except Unit (Resp × Ctx) :=
  if intent.type == "greeting" then
    Except.ok
      ({ message := "Hello! ðŸ‘‹ I'm your interior design assistant. I'm here to help you plan your perfect space! What type of project are you thinking about? (residential, commercial, or renovation?)",
         nextStep := Step.project_type, isComplete := false }, ctx)
  else
    Except.ok
      ({ message := "Hi there! I'm excited to help you with your interior design project. What type of project are you planning?",
         nextStep := Step.project_type, isComplete := false }, ctx)

/-- The `handleProjectType` handler. -/
def handleProjectType (intent : Intent) (ctx : Ctx) : Except Unit (Resp × Ctx) :=
  if intent.type == "residential" then
    match setCD ctx (fun d => { d with projectType := some "residential" }) with
    | Except.error e => Except.error e
    | Except.ok ctx =>
    Except.ok
      ({ message := "Great choice! ðŸ  Residential projects are our specialty. Which room are you looking to design? (living room, bedroom, kitchen, bathroom, etc.)",
         nextStep := Step.room_type, isComplete := false }, ctx)
  else if intent.type == "commercial" then
    match setCD ctx (fun d => { d with projectType := some "commercial" }) with
    | Except.error e => Except.error e
    | Except.ok ctx =>
    Except.ok
      ({ message := "Excellent! ðŸ¢ Commercial spaces require special attention to functionality and branding. What type of commercial space? (office, retail, restaurant, etc.)",
         nextStep := Step.room_type, isComplete := false }, ctx)
  else if intent.type == "renovation" then
    match setCD ctx (fun d => { d with projectType := some "renovation" }) with
    | Except.error e => Except.error e
    | Except.ok ctx =>
    Except.ok
      ({ message := "Renovations are exciting! ðŸ”¨ Which area are you renovating? (kitchen, bathroom, entire home, etc.)",
         nextStep := Step.room_type, isComplete := false }, ctx)
  else
    Except.ok
      ({ message := "I'd love to help! What type of project are you planning? You can choose from:\n" ++ bullet ++ " Residential (homes, apartments)\n" ++ bullet ++ " Commercial (offices, retail spaces)\n" ++ bullet ++ " Renovation (updating existing spaces)",
         nextStep := Step.project_type, isComplete := false }, ctx)

/-- The `handleRoomType` handler: it records `intent.type` unconditionally,
whatever the intent was. -/
def handleRoomType (intent : Intent) (ctx : Ctx) : Except Unit (Resp × Ctx) :=
  let roomType := intent.type
  match setCD ctx (fun d => { d with roomType := some roomType }) with
  | Except.error e => Except.error e
  | Except.ok ctx =>
  Except.ok
    ({ message := "Perfect! " ++ capitalizeJS roomType ++ "s are wonderful spaces to design. What's your preferred design style? Here are some popular options:\n\n" ++
         String.intercalate "\n"
           (DESIGN_STYLES.map (fun p => bullet ++ " " ++ capitalizeJS p.fst ++ ": " ++ p.snd)),
       nextStep := Step.design_style, isComplete := false }, ctx)

/-- The `handleDesignStyle` handler. -/
def handleDesignStyle (intent : Intent) (ctx : Ctx) : Except Unit (Resp × Ctx) :=
  if (lookupTable DESIGN_STYLES intent.type).isSome then
    match setCD ctx (fun d => { d with designStyle := some intent.type }) with
    | Except.error e => Except.error e
    | Except.ok ctx =>
    Except.ok
      ({ message := "Beautiful choice! " ++ capitalizeJS intent.type ++ " style is " ++
           jsShow (lookupTable DESIGN_STYLES intent.type) ++
           ". Now, let's talk budget. What's your budget range for this project?\n\n" ++
           String.intercalate "\n" (BUDGET_RANGES.map (fun p => bullet ++ " " ++ p.snd)),
         nextStep := Step.budget, isComplete := false }, ctx)
  else
    Except.ok
      ({ message := "I'd love to know your design preference! Which style appeals to you most? You can choose from modern, traditional, contemporary, minimalist, industrial, scandinavian, bohemian, coastal, farmhouse, mid-century, art-deco, or other.",
         nextStep := Step.design_style, isComplete := false }, ctx)

/-- The `handleBudget` handler. -/
def handleBudget (intent : Intent) (ctx : Ctx) : Except Unit (Resp × Ctx) :=
  if (lookupTable BUDGET_RANGES intent.type).isSome then
    match setCD ctx (fun d => { d with budget := some intent.type }) with
    | Except.error e => Except.error e
    | Except.ok ctx =>
    Except.ok
      ({ message := "Perfect! " ++ jsShow (lookupTable BUDGET_RANGES intent.type) ++
           " is a great budget range. What's your timeline for this project?\n\n" ++
           String.intercalate "\n" (TIMELINE_OPTIONS.map (fun p => bullet ++ " " ++ p.snd)),
         nextStep := Step.timeline, isComplete := false }, ctx)
  else
    Except.ok
      ({ message := "Understanding your budget helps us plan the perfect project! What's your budget range? You can choose from under $10,000, $10,000-$25,000, $25,000-$50,000, $50,000-$100,000, or over $100,000.",
         nextStep := Step.budget, isComplete := false }, ctx)

/-- The `handleTimeline` handler. -/
def handleTimeline (intent : Intent) (ctx : Ctx) : Except Unit (Resp × Ctx) :=
  if (lookupTable TIMELINE_OPTIONS intent.type).isSome then
    match setCD ctx (fun d => { d with timeline := some intent.type }) with
    | Except.error e => Except.error e
    | Except.ok ctx =>
    Except.ok
      ({ message := "Great! " ++ jsShow (lookupTable TIMELINE_OPTIONS intent.type) ++
           " gives us good time to plan. What's the approximate size of the space? (e.g., 500 sq ft, small bedroom, large open concept, etc.)",
         nextStep := Step.room_size, isComplete := false }, ctx)
  else
    Except.ok
      ({ message := "Timeline is important for planning! When would you like to complete this project? You can choose from 1-3 months, 3-6 months, 6-12 months, or over 12 months.",
         nextStep := Step.timeline, isComplete := false }, ctx)

/-- The `handleRoomSize` handler: the raw message is written to the working
copy unconditionally. -/
def handleRoomSize (message : String) (ctx : Ctx) : Except Unit (Resp × Ctx) :=
  match setCD ctx (fun d => { d with roomSize := some message }) with
  | Except.error e => Except.error e
  | Except.ok ctx =>
  Except.ok
    ({ message := "Thanks! Now I'd love to get your contact information so our team can reach out with a personalized proposal. What's your name?",
       nextStep := Step.contact_info, isComplete := false }, ctx)

/-- The `handleContactInfo` handler. -/
def handleContactInfo (intent : Intent) (message : String) (ctx : Ctx) :
    Except Unit (Resp × Ctx) :=
  if intent.type == "name" then
    match setCD ctx (fun d => { d with name := some message }) with
    | Except.error e => Except.error e
    | Except.ok ctx =>
    Except.ok
      ({ message := "Nice to meet you! What's your email address so we can send you our proposal?",
         nextStep := Step.contact_info, isComplete := false }, ctx)
  else if intent.type == "email" then
    match setCD ctx (fun d => { d with email := intent.data }) with
    | Except.error e => Except.error e
    | Except.ok ctx =>
    Except.ok
      ({ message := "Perfect! Finally, do you have any specific requirements or additional notes about your project? (e.g., must-have features, special considerations, etc.)",
         nextStep := Step.additional_notes, isComplete := false }, ctx)
  else
    match getCD ctx (fun d => d.name), getCD ctx (fun d => d.email) with
    | Except.error e, _ => Except.error e
    | _, Except.error e => Except.error e
    | Except.ok n, Except.ok e =>
    if jsTruthy n && jsTruthy e then
      Except.ok
        ({ message := "Great! Do you have any specific requirements or additional notes about your project? (e.g., must-have features, special considerations, etc.)",
           nextStep := Step.additional_notes, isComplete := false }, ctx)
    else
      Except.ok
        ({ message := "I'd love to get your contact information! What's your name?",
           nextStep := Step.contact_info, isComplete := false }, ctx)

/-- The fixed `nextSteps` array of the final step. -/
def finalNextSteps : List String :=
  ["Our design team will review your requirements",
   "You'll receive a personalized proposal within 24 hours",
   "We'll schedule a consultation to discuss your project in detail"]

/-- The `handleAdditionalNotes` handler: the summary interpolates the working
copy's fields, printing `undefined` for any field that is absent. -/
def handleAdditionalNotes (message : String) (ctx : Ctx) : Except Unit (Resp × Ctx) :=
  match setCD ctx (fun d => { d with additionalNotes := some message }) with
  | Except.error e => Except.error e
  | Except.ok ctx =>
  match ctx.collectedData with
  | none => Except.error ()
  | some d =>
  let projectType := d.projectType
  let roomType := d.roomType
  let designStyle := d.designStyle
  let budget := d.budget
  let timeline := d.timeline
  let roomSize := d.roomSize
  Except.ok
    ({ message := "ðŸŽ‰ Perfect! Thank you for sharing your project details with me. Here's a summary of what we discussed:\n\n" ++
         bullet ++ " Project Type: " ++ jsShow projectType ++ "\n" ++
         bullet ++ " Room Type: " ++ jsShow roomType ++ "\n" ++
         bullet ++ " Design Style: " ++ jsShow designStyle ++ "\n" ++
         bullet ++ " Budget: " ++ jsShow (budget.bind (lookupTable BUDGET_RANGES)) ++ "\n" ++
         bullet ++ " Timeline: " ++ jsShow (timeline.bind (lookupTable TIMELINE_OPTIONS)) ++ "\n" ++
         bullet ++ " Room Size: " ++ jsShow roomSize ++ "\n\n" ++
         "Our team will review your requirements and get back to you within 24 hours with a personalized proposal. We're excited to help bring your vision to life! ðŸ âœ¨",
       nextStep := Step.complete, isComplete := true, nextSteps := some finalNextSteps }, ctx)

/-- The `generateResponse` dispatch.  The default branch covers `complete`
(and in the source any unrecognized step value). -/
def generateResponse (message : String) (currentStep : Step) (intent : Intent) (ctx : Ctx) :
    Except Unit (Resp × Ctx) :=
  match currentStep with
  | Step.greeting => handleGreeting intent ctx
  | Step.project_type => handleProjectType intent ctx
  | Step.room_type => handleRoomType intent ctx
  | Step.design_style => handleDesignStyle intent ctx
  | Step.budget => handleBudget intent ctx
  | Step.timeline => handleTimeline intent ctx
  | Step.room_size => handleRoomSize message ctx
  | Step.contact_info => handleContactInfo intent message ctx
  | Step.additional_notes => handleAdditionalNotes message ctx
  | Step.complete =>
    Except.ok
      ({ message := "I'm here to help you with your interior design project! What type of project are you planning?",
         nextStep := Step.project_type, isComplete := false }, ctx)

/-- What the service can observe from the store in one call: a thrown lookup,
no prior record (or a record with no context), or the latest stored context. -/
def Store : Type := Except Unit (Option Ctx)

/-- The body of `getConversationContext` before its `catch`: the store lookup
may throw; a missing record yields the fresh initial context. -/
def getConversationContextBody (store : Store) : Except Unit Ctx :=
  match store with
  | Except.error e => Except.error e
  | Except.ok (some c) => Except.ok c
  | Except.ok none => Except.ok initialContext

/-- `getConversationContext`: any lookup error is caught and the fresh
initial context returned. -/
def getConversationContext (store : Store) : Ctx :=
  match getConversationContextBody store with
  | Except.ok c => c
  | Except.error _ => initialContext

/-- The `try` body of `updateContext` applied to the freshly fetched context:
set `currentStep` to the response's next step (every handler sets a next step,
so the `|| currentStep` fallback of the source is never taken) and commit the
step-keyed field only when `intent.type` is truthy and `intent.confidence`
exceeds 0.6. -/
def updateContextWith (fetched : Ctx) (currentStep : Step) (intent : Intent)
    (message : String) (resp : Resp) : Except Unit Ctx :=
  let ctx := { fetched with currentStep := some resp.nextStep }
  if !(intent.type == "") && 6 < intent.confidence then
    match currentStep with
    | Step.project_type => setCD ctx (fun d => { d with projectType := some intent.type })
    | Step.room_type => setCD ctx (fun d => { d with roomType := some intent.type })
    | Step.design_style => setCD ctx (fun d => { d with designStyle := some intent.type })
    | Step.budget => setCD ctx (fun d => { d with budget := some intent.type })
    | Step.timeline => setCD ctx (fun d => { d with timeline := some intent.type })
    | Step.contact_info =>
      if intent.type == "email" then setCD ctx (fun d => { d with email := intent.data })
      else if intent.type == "name" then setCD ctx (fun d => { d with name := some message })
      else Except.ok ctx
    | _ => Except.ok ctx
  else Except.ok ctx

/-- `updateContext`: re-fetch the latest context from the store and merge; a
`TypeError` raised by a write is caught and the fresh initial context
returned instead. -/
def updateContext (store : Store) (currentStep : Step) (intent : Intent)
    (message : String) (resp : Resp) : Ctx :=
  match updateContextWith (getConversationContext store) currentStep intent message resp with
  | Except.ok c => c
  | Except.error _ => initialContext

/-- `updateContext` with every `catch` removed, including the one inside its
`getConversationContext` call: used to state where exceptions can arise. -/
def updateContextNoCatch (store : Store) (currentStep : Step) (intent : Intent)
    (message : String) (resp : Resp) : Except Unit Ctx :=
  match getConversationContextBody store with
  | Except.error e => Except.error e
  | Except.ok fetched => updateContextWith fetched currentStep intent message resp

/-- The fixed apology outcome of `processMessage`'s `catch` branch. -/
def apologyOutcome : Outcome :=
  { response := "I'm sorry, I'm having trouble processing your message. Please try again or contact our team directly.",
    intent := "error", confidence := 0,
    context := { currentStep := none, collectedData := none, userPreferences := [] },
    isComplete := false, nextSteps := none }

/-- The `try` body of `processMessage`: fetch (errors absorbed inside), match
the intent, generate the response (a `TypeError` propagates to the `catch`),
merge the context (errors absorbed inside), and assemble the outcome. -/
def processBody (message : String) (store : Store) : Except Unit Outcome :=
  let context := getConversationContext store
  let currentStep := context.currentStep.getD Step.greeting
  let intent := analyzeIntent message currentStep
  match generateResponse message currentStep intent context with
  | Except.error e => Except.error e
  | Except.ok respCtx =>
    let updatedContext := updateContext store currentStep intent message respCtx.fst
    Except.ok
      { response := respCtx.fst.message, intent := intent.type, confidence := intent.confidence,
        context := updatedContext, isComplete := respCtx.fst.isComplete,
        nextSteps := respCtx.fst.nextSteps }

/-- The orchestrator `processMessage`: any exception escaping the body is
converted to the fixed apology outcome. -/
def processMessage (message : String) (store : Store) : Outcome :=
  match processBody message store with
  | Except.ok o => o
  | Except.error _ => apologyOutcome

/-- The whole pipeline with every `catch` removed: an error here means some
exception was raised somewhere while processing the message. -/
def processMessageNoCatch (message : String) (store : Store) : Except Unit Outcome :=
  match getConversationContextBody store with
  | Except.error e => Except.error e
  | Except.ok context =>
  let currentStep := context.currentStep.getD Step.greeting
  let intent := analyzeIntent message currentStep
  match generateResponse message currentStep intent context with
  | Except.error e => Except.error e
  | Except.ok respCtx =>
  match updateContextNoCatch store currentStep intent message respCtx.fst with
  | Except.error e => Except.error e
  | Except.ok updatedContext =>
  Except.ok
    { response := respCtx.fst.message, intent := intent.type, confidence := intent.confidence,
      context := updatedContext, isComplete := respCtx.fst.isComplete,
      nextSteps := respCtx.fst.nextSteps }

/-- Is an `Except` computation an error? -/
def isErr : Except Unit α → Bool
  | Except.error _ => true
  | Except.ok _ => false

/-- Drive a conversation: each call's returned context is persisted with both
the user and the bot record, so the next call's store holds exactly it. -/
def runConversation : List String → Store → List Outcome
  | [], _ => []
  | m :: rest, store =>
    let o := processMessage m store
    o :: runConversation rest (Except.ok (some o.context))

/-! General lemmas about the embedding, shared by the claim theorems below. -/

/-- The generator only raises a `TypeError` through an access to a missing
`collectedData` object: on a context whose `collectedData` is present it
always returns normally. -/
theorem generateResponse_ok (m : String) (step : Step) (intent : Intent) (ctx : Ctx)
    (d : CollectedData) (hd : ctx.collectedData = some d) :
    ∃ rc, generateResponse m step intent ctx = Except.ok rc := by
  cases step <;>
    simp only [generateResponse, handleGreeting, handleProjectType, handleRoomType,
      handleDesignStyle, handleBudget, handleTimeline, handleRoomSize, handleContactInfo,
      handleAdditionalNotes, setCD, getCD, hd] <;>
    (repeat' split) <;> exact ⟨_, rfl⟩

/-- Contrapositive form: if the generator raised, `collectedData` was missing. -/
theorem generateResponse_error_collectedData_none (m : String) (step : Step) (intent : Intent)
    (ctx : Ctx) (e : Unit) (he : generateResponse m step intent ctx = Except.error e) :
    ctx.collectedData = none := by
  cases hd : ctx.collectedData with
  | none => rfl
  | some d =>
    obtain ⟨rc, hrc⟩ := generateResponse_ok m step intent ctx d hd
    rw [hrc] at he
    exact absurd he (by simp)

/-- When the matched intent does not clear the 0.6 gate, the merge only moves
`currentStep` to the response's next step and leaves everything else alone. -/
theorem updateContextWith_lowConf (fetched : Ctx) (step : Step) (intent : Intent)
    (m : String) (resp : Resp) (h : intent.confidence ≤ 6) :
    updateContextWith fetched step intent m resp =
      Except.ok { fetched with currentStep := some resp.nextStep } := by
  have hc : ¬ (6 < intent.confidence) := by omega
  simp [updateContextWith, hc]

/-- On a store holding a context, both fetches observe exactly it. -/
theorem getConversationContext_ok_some (ctx : Ctx) :
    getConversationContext (Except.ok (some ctx)) = ctx := rfl

/-- A successful merge never touches the `phone` field of the context it
merged into. -/
theorem updateContextWith_ok_phone (fetched : Ctx) (step : Step) (intent : Intent)
    (m : String) (resp : Resp) (c : Ctx)
    (h : updateContextWith fetched step intent m resp = Except.ok c) :
    c.collectedData.bind (fun d => d.phone) = fetched.collectedData.bind (fun d => d.phone) := by
  cases hcd : fetched.collectedData with
  | none =>
    simp only [updateContextWith, setCD, hcd] at h
    (repeat' split at h) <;> (try cases h) <;> simp_all
  | some d =>
    simp only [updateContextWith, setCD, hcd] at h
    (repeat' split at h) <;> (try cases h) <;> simp_all

/-- The merge raises only on a write into a missing `collectedData`. -/
theorem updateContextWith_error_collectedData_none (fetched : Ctx) (step : Step)
    (intent : Intent) (m : String) (resp : Resp) (e : Unit)
    (h : updateContextWith fetched step intent m resp = Except.error e) :
    fetched.collectedData = none := by
  cases hcd : fetched.collectedData with
  | none => rfl
  | some d =>
    simp only [updateContextWith, setCD, hcd] at h
    (repeat' split at h) <;> simp_all

/-- The persisted context never gains a `phone` value: its `phone` field is
exactly the one of the context fetched back from the store. -/
theorem updateContext_phone (store : Store) (step : Step) (intent : Intent)
    (m : String) (resp : Resp) :
    (updateContext store step intent m resp).collectedData.bind (fun d => d.phone) =
      (getConversationContext store).collectedData.bind (fun d => d.phone) := by
  unfold updateContext
  split
  · rename_i c heq
    have := updateContextWith_ok_phone _ _ _ _ _ _ heq
    simpa using this
  · rename_i e heq
    have := updateContextWith_error_collectedData_none _ _ _ _ _ _ heq
    simp only [Ctx.mk.injEq] at this ⊢
    simp [initialContext, this]


/-- Shared helper: when the matched intent's confidence is at most 0.6, the
returned context's `collectedData` is exactly the stored one (on the normal
path the gate rejects the commit; on the apology path the stored
`collectedData` was the missing object). -/
theorem lowConf_preserves_collectedData (ctx : Ctx) (msg : String)
    (h : (analyzeIntent msg (ctx.currentStep.getD Step.greeting)).confidence ≤ 6) :
    (processMessage msg (Except.ok (some ctx))).context.collectedData = ctx.collectedData := by
  unfold processMessage processBody
  simp only [getConversationContext, getConversationContextBody]
  cases hg : generateResponse msg (ctx.currentStep.getD Step.greeting)
      (analyzeIntent msg (ctx.currentStep.getD Step.greeting)) ctx with
  | error e =>
    have hnone : ctx.collectedData = none :=
      generateResponse_error_collectedData_none _ _ _ _ _ hg
    simp [hg, apologyOutcome, hnone]
  | ok rc =>
    have hup := updateContextWith_lowConf ctx (ctx.currentStep.getD Step.greeting)
      (analyzeIntent msg (ctx.currentStep.getD Step.greeting)) msg rc.fst h
    simp [hg, updateContext, getConversationContext, getConversationContextBody, hup]

/-! Claim theorems. -/

/-- The exact message sequence of the terminal scenario of the spec. -/
def c2Messages : List String :=
  ["hi", "residential", "kitchen", "modern", "10k-25k", "3-6-months", "200 sq ft",
   "John", "john@example.com", "no special requests"]

/-- C2, counterexample: the terminal-scenario sequence does not drive the
conversation through all ten steps and does not complete.  The budget message
"10k-25k" is bucketed by the numeric fallback (into `under-10k`), the timeline
message "3-6-months" matches no timeline band, and from there every remaining
message leaves `currentStep` at `timeline`; every outcome of the run has
`isComplete = false`, contradicting the claimed `isComplete = true`. -/
theorem c2_counterexample :
    (runConversation c2Messages (Except.ok none)).map (fun o => o.isComplete) =
      [false, false, false, false, false, false, false, false, false, false] ∧
    (runConversation c2Messages (Except.ok none)).map (fun o => o.context.currentStep) =
      [some Step.project_type, some Step.room_type, some Step.design_style, some Step.budget,
       some Step.timeline, some Step.timeline, some Step.timeline, some Step.timeline,
       some Step.timeline, some Step.timeline] := by decide

/-- C2, amended: feeding the terminal-scenario sequence to a fresh
conversation advances `greeting → project_type → room_type → design_style →
budget → timeline` on the first five messages, recording projectType
`residential`, roomType `kitchen`, designStyle `modern` and budget
`under-10k` (the numeric fallback on "10k-25k"); the message "3-6-months"
matches no timeline band, so every remaining message re-prompts, leaves
`currentStep` at `timeline` and records nothing further, and the final
outcome has `isComplete = false`. -/
theorem c2_amended_trace :
    (runConversation c2Messages (Except.ok none)).map (fun o => o.context.currentStep) =
      [some Step.project_type, some Step.room_type, some Step.design_style, some Step.budget,
       some Step.timeline, some Step.timeline, some Step.timeline, some Step.timeline,
       some Step.timeline, some Step.timeline] ∧
    (runConversation c2Messages (Except.ok none)).map (fun o => o.context.collectedData) =
      [some {}, some { projectType := some "residential" },
       some { projectType := some "residential", roomType := some "kitchen" },
       some { projectType := some "residential", roomType := some "kitchen",
              designStyle := some "modern" },
       some { projectType := some "residential", roomType := some "kitchen",
              designStyle := some "modern", budget := some "under-10k" },
       some { projectType := some "residential", roomType := some "kitchen",
              designStyle := some "modern", budget := some "under-10k" },
       some { projectType := some "residential", roomType := some "kitchen",
              designStyle := some "modern", budget := some "under-10k" },
       some { projectType := some "residential", roomType := some "kitchen",
              designStyle := some "modern", budget := some "under-10k" },
       some { projectType := some "residential", roomType := some "kitchen",
              designStyle := some "modern", budget := some "under-10k" },
       some { projectType := some "residential", roomType := some "kitchen",
              designStyle := some "modern", budget := some "under-10k" }] ∧
    (runConversation c2Messages (Except.ok none)).map (fun o => o.isComplete) =
      [false, false, false, false, false, false, false, false, false, false] := by decide

/-- A corrected message sequence that does complete the questionnaire: the
budget and timeline answers are phrased so the matcher's substring rules fire
and the name is given with the word "name" in it. -/
def c4Messages : List String :=
  ["hi", "residential", "kitchen", "modern", "10k 25k", "3-6 months", "200 sq ft",
   "my name is John", "john@example.com", "no special requests"]

set_option maxRecDepth 100000 in
/-- C4: evaluation of the code on a conversation that reaches `room_size` and
runs to completion.  The claim (and the spec) say the raw "200 sq ft" message
is recorded as `collectedData.roomSize` of the persisted context, and the raw
final message as `collectedData.additionalNotes`; the code never persists
either field (`updateContext` re-fetches the stored context and its
step-keyed switch has no `room_size` or `additional_notes` case), so the
persisted `roomSize` and `additionalNotes` stay absent through the whole run
and the final summary - which the code builds from the stored `roomSize` -
renders "Room Size: undefined". -/
theorem c4_roomSize_never_persisted :
    (runConversation c4Messages (Except.ok none)).map (fun o => o.context.currentStep) =
      [some Step.project_type, some Step.room_type, some Step.design_style, some Step.budget,
       some Step.timeline, some Step.room_size, some Step.contact_info, some Step.contact_info,
       some Step.additional_notes, some Step.complete] ∧
    (runConversation c4Messages (Except.ok none)).map
        (fun o => o.context.collectedData.bind (fun d => d.roomSize)) =
      [none, none, none, none, none, none, none, none, none, none] ∧
    (runConversation c4Messages (Except.ok none)).map
        (fun o => o.context.collectedData.bind (fun d => d.additionalNotes)) =
      [none, none, none, none, none, none, none, none, none, none] ∧
    (runConversation c4Messages (Except.ok none)).map (fun o => o.isComplete) =
      [false, false, false, false, false, false, false, false, false, true] ∧
    (runConversation c4Messages (Except.ok none)).map
        (fun o => includes o.response "Room Size: undefined") =
      [false, false, false, false, false, false, false, false, false, true] := by decide

/-- C5: the numeric budget fallback buckets the first integer of the message
with confidence 0.7: "my budget is 30000" yields band `25k-50k`, and the four
boundary values land in `10k-25k`, `25k-50k`, `50k-100k` and `over-100k`. -/
theorem c5_budget_numeric_fallback :
    analyzeIntent "my budget is 30000" Step.budget =
      { type := "25k-50k", confidence := 7 } ∧
    analyzeIntent "my budget is 10000" Step.budget =
      { type := "10k-25k", confidence := 7 } ∧
    analyzeIntent "my budget is 25000" Step.budget =
      { type := "25k-50k", confidence := 7 } ∧
    analyzeIntent "my budget is 50000" Step.budget =
      { type := "50k-100k", confidence := 7 } ∧
    analyzeIntent "my budget is 100000" Step.budget =
      { type := "over-100k", confidence := 7 } := by decide

/-- C9: band keys are not matched as typed.  The key matching only tests the
key with its first hyphen replaced by a space and the lower-cased label, so
the exact key "3-6-months" at step `timeline` is classified `unknown` with
confidence 0.3, and the exact key "10k-25k" at step `budget` falls through to
the numeric fallback and is classified `under-10k` with confidence 0.7. -/
theorem c9_band_key_not_matched :
    analyzeIntent "3-6-months" Step.timeline = unknownIntent ∧
    unknownIntent = { type := "unknown", confidence := 3 } ∧
    analyzeIntent "10k-25k" Step.budget = { type := "under-10k", confidence := 7 } := by decide

/-- C7, counterexample: with a store whose lookup throws, an exception is
raised while processing (both the initial fetch and the re-fetch inside
`updateContext` throw), yet `processMessage` returns the normal greeting
outcome, not the fixed apology outcome. -/
theorem c7_counterexample :
    isErr (processMessageNoCatch "hi" (Except.error ())) = true ∧
    isErr (updateContextNoCatch (Except.error ()) Step.greeting
      (analyzeIntent "hi" Step.greeting) "hi"
      { message := "", nextStep := Step.project_type, isComplete := false }) = true ∧
    processMessage "hi" (Except.error ()) ≠ apologyOutcome ∧
    (processMessage "hi" (Except.error ())).intent = "greeting" := by decide

/-- C7, amended: an exception that escapes to `processMessage`'s own try
block (in this embedding, a `TypeError` from response generation on a
context with a missing `collectedData` object) is absorbed into the fixed
apology outcome and never propagated; exceptions inside the store fetch and
inside `updateContext` are caught locally and produce fresh-start behavior
instead of the apology. -/
theorem c7_amended_absorbed_error_yields_apology (msg : String) (store : Store)
    (h : isErr (processBody msg store) = true) :
    processMessage msg store = apologyOutcome := by
  unfold processMessage
  cases hb : processBody msg store with
  | ok o => rw [hb] at h; simp [isErr] at h
  | error e => rfl

/-- C7, witness: a stored context at step `room_size` whose `collectedData`
object is missing makes the generator's write throw; the body errors and the
outcome is the apology. -/
theorem c7_witness :
    isErr (processBody "200 sq ft" (Except.ok (some
      { currentStep := some Step.room_size, collectedData := none,
        userPreferences := [] }))) = true ∧
    processMessage "200 sq ft" (Except.ok (some
      { currentStep := some Step.room_size, collectedData := none,
        userPreferences := [] })) = apologyOutcome :=
  ⟨by decide, c7_amended_absorbed_error_yields_apology _ _ (by decide)⟩

/-- C1: when the matched intent's confidence is at most 0.6, the context
`processMessage` returns (the one persisted with both the user and bot
records) has `collectedData` identical to the stored context's
`collectedData`: the 0.6 gate in `updateContext` rejects the commit at every
step, so no field is added or changed. -/
theorem c1_gate_preserves_collectedData (ctx : Ctx) (msg : String)
    (h : (analyzeIntent msg (ctx.currentStep.getD Step.greeting)).confidence ≤ 6) :
    (processMessage msg (Except.ok (some ctx))).context.collectedData = ctx.collectedData :=
  lowConf_preserves_collectedData ctx msg h

/-- C1, witness: a nonsense message at the fresh greeting context has the
`unknown` intent (confidence 0.3 ≤ 0.6) and changes no collected data. -/
theorem c1_witness :
    (analyzeIntent "xyzzy" (initialContext.currentStep.getD Step.greeting)).confidence ≤ 6 ∧
    (processMessage "xyzzy" (Except.ok (some initialContext))).context.collectedData =
      initialContext.collectedData :=
  ⟨by decide, c1_gate_preserves_collectedData initialContext "xyzzy" (by decide)⟩

/-- C3, counterexample: at the `greeting` step the message "xyzzy" matches
the `unknown` intent (confidence 0.3), yet `processMessage` advances
`currentStep` from `greeting` to `project_type`: an unknown intent does not
leave the step unchanged at every step. -/
theorem c3_counterexample :
    analyzeIntent "xyzzy" (initialContext.currentStep.getD Step.greeting) = unknownIntent ∧
    (processMessage "xyzzy" (Except.ok (some initialContext))).context.currentStep ≠
      initialContext.currentStep ∧
    (processMessage "xyzzy" (Except.ok (some initialContext))).context.currentStep =
      some Step.project_type := by decide

/-- C3, amended: for a stored context whose `collectedData` object is
present, a message matching the `unknown` intent (confidence 0.3) never
persists any `collectedData` field; it leaves `currentStep` unchanged at the
steps `project_type`, `design_style`, `budget` and `timeline`, and at
`contact_info` when name and email are not both already collected - but at
the remaining steps (`greeting`, `room_type`, `room_size`,
`additional_notes`, `complete`, and `contact_info` with both contact fields
truthy) the step advances even on an unknown intent. -/
theorem c3_amended_unknown_intent (ctx : Ctx) (d : CollectedData) (msg : String)
    (hd : ctx.collectedData = some d)
    (hu : analyzeIntent msg (ctx.currentStep.getD Step.greeting) = unknownIntent) :
    (processMessage msg (Except.ok (some ctx))).context.collectedData = some d ∧
    (∀ s, ctx.currentStep = some s →
      (s = Step.project_type ∨ s = Step.design_style ∨ s = Step.budget ∨ s = Step.timeline ∨
        (s = Step.contact_info ∧ ¬(jsTruthy d.name = true ∧ jsTruthy d.email = true))) →
      (processMessage msg (Except.ok (some ctx))).context.currentStep = some s) := by
  constructor
  · have hp := lowConf_preserves_collectedData ctx msg (by rw [hu]; decide)
    rw [hp, hd]
  · intro s hs hcase
    obtain ⟨cs, cd, up⟩ := ctx
    simp only at hs hd
    subst hs
    subst hd
    simp only [Option.getD_some] at hu
    rcases hcase with rfl | rfl | rfl | rfl | ⟨rfl, hne⟩ <;>
      unfold processMessage processBody <;>
      simp only [getConversationContext, getConversationContextBody, Option.getD_some] <;>
      rw [hu] <;>
      simp [generateResponse, handleProjectType, handleDesignStyle, handleBudget,
        handleTimeline, handleContactInfo, unknownIntent, updateContext, updateContextWith,
        getConversationContext, getConversationContextBody, setCD, getCD, lookupTable,
        DESIGN_STYLES, BUDGET_RANGES, TIMELINE_OPTIONS]
    rw [if_neg hne]

/-- C3, witness: the message "zzz" at step `project_type` with empty collected
data matches `unknown`, persists nothing and stays at `project_type`. -/
theorem c3_witness :
    (processMessage "zzz" (Except.ok (some
      { currentStep := some Step.project_type, collectedData := some {},
        userPreferences := [] }))).context.collectedData = some {} ∧
    (processMessage "zzz" (Except.ok (some
      { currentStep := some Step.project_type, collectedData := some {},
        userPreferences := [] }))).context.currentStep = some Step.project_type := by
  have h := c3_amended_unknown_intent
    { currentStep := some Step.project_type, collectedData := some {}, userPreferences := [] }
    {} "zzz" rfl (by decide)
  exact ⟨h.1, h.2 Step.project_type rfl (Or.inl rfl)⟩

/-- C6: round-trip through the reference table.  Whatever data is already
collected, processing "modern" at step `design_style` persists
`collectedData.designStyle = "modern"` and the bot message interpolates the
`DESIGN_STYLES` description of the very key the matcher returned. -/
theorem c6_design_style_roundtrip (d : CollectedData) (prefs : List (String × String)) :
    (processMessage "modern" (Except.ok (some
      { currentStep := some Step.design_style, collectedData := some d,
        userPreferences := prefs }))).context.collectedData =
      some { d with designStyle := some "modern" } ∧
    includes (processMessage "modern" (Except.ok (some
      { currentStep := some Step.design_style, collectedData := some d,
        userPreferences := prefs }))).response
      "Clean lines, minimal decoration, and a focus on function" = true := by
  have hint : analyzeIntent "modern" Step.design_style =
      { type := "modern", confidence := 8, data := none } := by decide
  have hl : lookupTable DESIGN_STYLES "modern" =
      some "Clean lines, minimal decoration, and a focus on function" := by decide
  unfold processMessage processBody
  simp only [getConversationContext, getConversationContextBody, Option.getD_some]
  rw [hint]
  simp only [generateResponse, handleDesignStyle, hl, Option.isSome_some, if_true,
    updateContext, updateContextWith, getConversationContext, getConversationContextBody, setCD]
  constructor
  · simp
  · decide

/-- Helper for C8: `processMessage` observes the store only through
`getConversationContext`, so stores that fetch to the same context produce
identical outcomes. -/
theorem processMessage_congr_store (msg : String) (s1 s2 : Store)
    (h : getConversationContext s1 = getConversationContext s2) :
    processMessage msg s1 = processMessage msg s2 := by
  unfold processMessage processBody updateContext
  rw [h]

/-- C8: fetching the context of a conversation with no stored record yields
the initial context, and so does fetching when the store lookup throws; a new
conversation, one behind a store outage, and one whose stored context is
explicitly the initial context all behave identically under
`processMessage`. -/
theorem c8_fresh_and_outage_identical (msg : String) :
    getConversationContext (Except.ok none) = initialContext ∧
    getConversationContext (Except.error ()) = initialContext ∧
    processMessage msg (Except.ok none) = processMessage msg (Except.error ()) ∧
    processMessage msg (Except.ok none) = processMessage msg (Except.ok (some initialContext)) :=
  ⟨rfl, rfl, processMessage_congr_store msg _ _ rfl, processMessage_congr_store msg _ _ rfl⟩

/-- C10: a message at step `contact_info` that fails the email pattern but
matches the phone pattern yields the intent `phone` with confidence 0.9 and
the extracted number; no operation of the service ever writes
`collectedData.phone` (the persisted phone field always equals the fetched
one, for every message and store); and unless name and email are both
already collected the step does not advance: the response re-prompts for the
name and `currentStep` stays `contact_info`. -/
theorem c10_phone_intent_never_advances :
    (∀ (msg : String) (store : Store),
      (processMessage msg store).context.collectedData.bind (fun d => d.phone) =
        (getConversationContext store).collectedData.bind (fun d => d.phone)) ∧
    (∀ (msg : String) (d : CollectedData) (prefs : List (String × String)),
      emailSearch msg = none →
      phoneSearch msg ≠ none →
      ¬(jsTruthy d.name = true ∧ jsTruthy d.email = true) →
      analyzeIntent msg Step.contact_info =
        { type := "phone", confidence := 9, data := phoneSearch msg } ∧
      (processMessage msg (Except.ok (some
        { currentStep := some Step.contact_info, collectedData := some d,
          userPreferences := prefs }))).context.currentStep = some Step.contact_info ∧
      (processMessage msg (Except.ok (some
        { currentStep := some Step.contact_info, collectedData := some d,
          userPreferences := prefs }))).context.collectedData = some d ∧
      (processMessage msg (Except.ok (some
        { currentStep := some Step.contact_info, collectedData := some d,
          userPreferences := prefs }))).response =
        "I'd love to get your contact information! What's your name?") := by
  constructor
  · intro msg store
    unfold processMessage processBody
    cases hg : generateResponse msg
        ((getConversationContext store).currentStep.getD Step.greeting)
        (analyzeIntent msg ((getConversationContext store).currentStep.getD Step.greeting))
        (getConversationContext store) with
    | error e =>
      have hnone := generateResponse_error_collectedData_none _ _ _ _ _ hg
      simp [hg, apologyOutcome, hnone]
    | ok rc =>
      simp [hg, updateContext_phone]
  · intro msg d prefs he hp hne
    have hint : analyzeIntent msg Step.contact_info =
        { type := "phone", confidence := 9, data := phoneSearch msg } := by
      cases hps : phoneSearch msg with
      | none => exact absurd hps hp
      | some p => simp [analyzeIntent, he, hps]
    refine ⟨hint, ?_, ?_, ?_⟩ <;>
      unfold processMessage processBody <;>
      simp only [getConversationContext, getConversationContextBody, Option.getD_some] <;>
      rw [hint] <;>
      cases hps : phoneSearch msg with
      | none => exact absurd hps hp
      | some p =>
        simp only [generateResponse, handleContactInfo, updateContext, updateContextWith,
          getConversationContext, getConversationContextBody, setCD, getCD]
        simp [hne]

/-- C10, witness: the plain phone number "555-123-4567" is not an email, is a
phone match extracting itself, persists nothing and keeps the conversation at
`contact_info` with the name re-prompt. -/
theorem c10_witness :
    analyzeIntent "555-123-4567" Step.contact_info =
      { type := "phone", confidence := 9, data := some "555-123-4567" } ∧
    (processMessage "555-123-4567" (Except.ok (some
      { currentStep := some Step.contact_info, collectedData := some {},
        userPreferences := [] }))).context.currentStep = some Step.contact_info ∧
    (processMessage "555-123-4567" (Except.ok (some
      { currentStep := some Step.contact_info, collectedData := some {},
        userPreferences := [] }))).context.collectedData = some {} ∧
    (processMessage "555-123-4567" (Except.ok (some
      { currentStep := some Step.contact_info, collectedData := some {},
        userPreferences := [] }))).response =
      "I'd love to get your contact information! What's your name?" := by
  have h := c10_phone_intent_never_advances.2 "555-123-4567" {} []
    (by decide) (by decide) (by decide)
  refine ⟨?_, h.2.1, h.2.2.1, h.2.2.2⟩
  rw [h.1]
  decide

end IBackend
